import Mathlib

/-!
Shallow embedding of `build-viewer.py` (konczdev/skia-builder), the build
orchestrator for the Skia Viewer application.  The script's argument
resolution, validation, GN-argument rendering and output-directory logic are
pure table lookups and string formatting; they are embedded here as Lean
functions.  Process exit is modelled with `Except Nat` carrying the exit
status; printed warnings/errors are collected in a `List String` in emission
order.  Filesystem probes (the Windows Clang path scan) are modelled as an
explicit oracle `String → Bool` standing for `os.path.isdir`.
-/

namespace SkiaViewer

/-- Substring test on strings, via the underlying character lists. -/
def strContainsAux (pat : List Char) : List Char → Bool
  | [] => pat.isEmpty
  | c :: rest => pat.isPrefixOf (c :: rest) || strContainsAux pat rest

/-- `strContains s pat` is true when `pat` occurs contiguously inside `s`. -/
def strContains (s pat : String) : Bool :=
  strContainsAux pat.data s.data

/-- `PLATFORM_BACKENDS` from build-viewer.py: per-platform backend table,
mapping each backend name to whether it is recommended (`True`) or present
but not recommended (`False`).  The Python dict is keyed by platform only;
there is no per-architecture entry.  `.get(platform, {})` is the `[]`
catch-all. -/
def PLATFORM_BACKENDS : String → List (String × Bool)
  | "mac" => [("gl", true), ("metal", true), ("vulkan", false), ("dawn", true)]
  | "win" => [("gl", true), ("vulkan", true), ("d3d", true), ("dawn", true)]
  | "linux" => [("gl", true), ("vulkan", true), ("dawn", true)]
  | _ => []

/-- `DEFAULT_BACKENDS` from build-viewer.py (`.get(platform, [])`). -/
def DEFAULT_BACKENDS : String → List String
  | "mac" => ["gl", "metal", "dawn"]
  | "win" => ["gl", "vulkan", "d3d", "dawn"]
  | "linux" => ["gl", "vulkan", "dawn"]
  | _ => []

/-- Lookup of a backend in the platform table: `none` models
`backend not in available`, `some b` models `available[backend] = b`. -/
def backendEntry (platform backend : String) : Option Bool :=
  (PLATFORM_BACKENDS platform).lookup backend

/-- The resolver state of `ViewerBuildScript` after `parse_arguments` has
filled the fields (before or after `validate_configuration`). -/
structure ViewerBuildScript where
  platform : String
  config : String
  arch : String
  backends : List String
  with_ganesh : Bool
  with_graphite : Bool
  with_resources : Bool
  clean : Bool
deriving DecidableEq, Repr

/-- Raw command-line input as delivered by argparse's destinations:
the positional platform token, optional `-config`, `-arch`, `-backends`
values, and the four store-true flags. -/
structure RawArgs where
  platform : String
  config : Option String
  arch : Option String
  backends : Option String
  no_ganesh : Bool
  no_graphite : Bool
  no_resources : Bool
  clean : Bool
deriving DecidableEq, Repr

/-- `get_default_arch`: mac defaults to arm64, win to x64, anything else
(linux) to x64. -/
def get_default_arch (platform : String) : String :=
  if platform = "mac" then "arm64"
  else if platform = "win" then "x64"
  else "x64"

/-- Helper for `pySplitComma`: splits a character list at every comma,
accumulating the current field in reverse. -/
def splitCommaAux : List Char → List Char → List (List Char)
  | [], acc => [acc.reverse]
  | c :: rest, acc =>
      if c = ',' then acc.reverse :: splitCommaAux rest []
      else splitCommaAux rest (c :: acc)

/-- Python `str.split(",")`: the fields between commas, empty fields kept
(so the empty string yields one empty field). -/
def pySplitComma (s : String) : List String :=
  (splitCommaAux s.data []).map String.mk

/-- Python `str.strip()`: drops leading and trailing whitespace. -/
def pyStrip (s : String) : String :=
  String.mk
    (((s.data.dropWhile Char.isWhitespace).reverse.dropWhile
        Char.isWhitespace).reverse)

/-- Python `str.lower()` (ASCII range, which covers every backend token the
script compares against). -/
def pyLower (s : String) : String :=
  String.mk (s.data.map Char.toLower)

/-- `parse_backends`: a truthy (non-None, non-empty) `-backends` string is
split on commas and each token stripped and lowercased; otherwise the
per-platform default list is used. -/
def parse_backends (platform : String) : Option String → List String
  | some s =>
      if s = "" then DEFAULT_BACKENDS platform
      else (pySplitComma s).map (fun b => pyLower (pyStrip b))
  | none => DEFAULT_BACKENDS platform

/-- Error printed when both rendering engines are disabled. -/
def engines_error : String :=
  "Error: Viewer requires at least Ganesh or Graphite enabled"

/-- Error printed when the filtered backend list is empty. -/
def no_backends_error : String :=
  "Error: No valid backends selected"

/-- Warning printed when Dawn is selected with Graphite disabled. -/
def dawn_warning : String :=
  "Warning: Dawn requires Graphite. Enabling Graphite."

/-- Warning for a backend absent from the platform table. -/
def warn_not_recognized (backend platform : String) : String :=
  "Warning: Backend \x27" ++ backend ++ "\x27 not recognized for " ++
    platform ++ ", skipping"

/-- Warning for a backend present in the table but marked not recommended. -/
def warn_not_recommended (backend platform : String) : String :=
  "Warning: Backend \x27" ++ backend ++ "\x27 not recommended on " ++
    platform ++ ", skipping"

/-- Error for an architecture outside the platform's allowed set. -/
def arch_error (arch platform : String) : String :=
  "Error: Invalid architecture \x27" ++ arch ++ "\x27 for " ++ platform

/-- The backend-filtering loop of `validate_configuration`: returns the
warnings printed (in order) and the surviving `valid_backends` list. -/
def filterBackends (platform : String) : List String → List String × List String
  | [] => ([], [])
  | b :: rest =>
      let r := filterBackends platform rest
      match backendEntry platform b with
      | none => (warn_not_recognized b platform :: r.1, r.2)
      | some false => (warn_not_recommended b platform :: r.1, r.2)
      | some true => (r.1, b :: r.2)

/-- The message, when any, that the filtering loop prints for one requested
backend (dropped backends produce exactly one warning; kept ones none). -/
def dropWarning (platform backend : String) : Option String :=
  match backendEntry platform backend with
  | none => some (warn_not_recognized backend platform)
  | some false => some (warn_not_recommended backend platform)
  | some true => none

/-- The `valid_archs` table inside `validate_configuration`
(`.get(platform, [])` is the catch-all). -/
def valid_archs : String → List String
  | "mac" => ["arm64"]
  | "win" => ["x64", "arm64"]
  | "linux" => ["x64", "arm64"]
  | _ => []

/-- The Dawn-requires-Graphite step of `validate_configuration`, applied to
the state whose `backends` are already the filtered list: when `dawn`
is selected and Graphite is off, a warning is printed and Graphite is forced
on; otherwise the state passes through unchanged. -/
def validate_step_dawn (s : ViewerBuildScript) :
    List String × ViewerBuildScript :=
  if s.backends.contains "dawn" = true ∧ s.with_graphite = false then
    ([dawn_warning], { s with with_graphite := true })
  else ([], s)

/-- `validate_configuration`: engine check, backend filtering, empty-set
check, Dawn/Graphite forcing, then architecture check.  `Except.error 1`
models `sys.exit(1)`; the first component collects everything printed. -/
def validate_configuration (s : ViewerBuildScript) :
    List String × Except Nat ViewerBuildScript :=
  if s.with_ganesh = false ∧ s.with_graphite = false then
    ([engines_error], Except.error 1)
  else
    if (filterBackends s.platform s.backends).2 = [] then
      ((filterBackends s.platform s.backends).1 ++ [no_backends_error],
        Except.error 1)
    else
      if (valid_archs s.platform).contains s.arch = true then
        ((filterBackends s.platform s.backends).1 ++
          (validate_step_dawn
            { s with backends := (filterBackends s.platform s.backends).2 }).1,
          Except.ok (validate_step_dawn
            { s with backends := (filterBackends s.platform s.backends).2 }).2)
      else
        ((filterBackends s.platform s.backends).1 ++
          (validate_step_dawn
            { s with backends := (filterBackends s.platform s.backends).2 }).1
          ++ [arch_error s.arch s.platform],
          Except.error 1)

/-- The argparse `choices` list of the positional platform argument. -/
def choices_platform : List String := ["mac", "win", "linux"]

/-- The argparse `choices` list of `-config`. -/
def choices_config : List String := ["Debug", "Release"]

/-- Whether the `-config` value (when supplied) passes argparse's choices
check. -/
def configOk : Option String → Bool
  | none => true
  | some c => choices_config.contains c

/-- Stand-in for the usage/error text argparse prints on an invalid choice
(the exact wording is produced by the Python standard library, not by this
repository; no claim depends on it). -/
def argparse_usage_error : String :=
  "usage: build-viewer.py: error: invalid choice"

/-- The field assignments of `parse_arguments` once argparse has accepted
the tokens: `config` defaults to Release, `arch` comes from
`args.arch or get_default_arch()` (Python `or`: None or the empty string
falls back to the default), backends from `parse_backends`, the four
flags are negations of their `--no-...` switches.  The argparse layer
itself rejects an unknown platform or an invalid `-config` choice by
`parser.error`, which prints usage and calls `sys.exit(2)` (Python
standard-library behaviour, modelled as `Except.error 2` in
`parse_arguments`). -/
def resolve_state (a : RawArgs) : ViewerBuildScript :=
  { platform := a.platform
    config := a.config.getD "Release"
    arch :=
      match a.arch with
      | some x => if x = "" then get_default_arch a.platform else x
      | none => get_default_arch a.platform
    backends := parse_backends a.platform a.backends
    with_ganesh := !a.no_ganesh
    with_graphite := !a.no_graphite
    with_resources := !a.no_resources
    clean := a.clean }

/-- The full argument-resolution pipeline: argparse checks, field filling
(`resolve_state`), then `validate_configuration`. -/
def parse_arguments (a : RawArgs) :
    List String × Except Nat ViewerBuildScript :=
  if choices_platform.contains a.platform = false then
    ([argparse_usage_error], Except.error 2)
  else if configOk a.config = false then
    ([argparse_usage_error], Except.error 2)
  else
    validate_configuration (resolve_state a)

/-- Python's `"true"`/`"false"` strings substituted into the GN templates. -/
def bool_str (b : Bool) : String := if b then "true" else "false"

/-- `VIEWER_BASE_GN_ARGS` with the `ganesh`/`graphite` placeholders
substituted, transcribed byte for byte from the triple-quoted template. -/
def base_gn_args (ganesh graphite : Bool) : String :=
  "\nskia_enable_tools = true\n\n" ++
  ("skia_enable_ganesh = " ++ bool_str ganesh ++ "\n") ++
  ("skia_enable_graphite = " ++ bool_str graphite ++ "\n") ++
  "\nskia_use_libjpeg_turbo_decode = true\nskia_use_libpng_decode = true\nskia_use_libpng_encode = true\nskia_use_libwebp_decode = true\nskia_use_wuffs = true\n\nskia_use_icu = true\nskia_use_harfbuzz = true\nskia_enable_skparagraph = true\nskia_enable_skshaper = true\n\nskia_enable_skottie = true\nskia_enable_svg = true\nskia_enable_pdf = true\n\nskia_use_system_libjpeg_turbo = false\nskia_use_system_libpng = false\nskia_use_system_zlib = false\nskia_use_system_expat = false\nskia_use_system_icu = false\nskia_use_system_harfbuzz = false\nskia_use_system_libwebp = false\n\nskia_use_expat = true\n"

/-- `PLATFORM_GN_ARGS[platform].format(...)`: the per-platform template with
arch, per-backend booleans and (on win) the runtime-library flag
substituted.  An unknown platform would raise `KeyError` in Python; it is
unreachable after validation and maps to `""` here. -/
def platform_gn_args (s : ViewerBuildScript) : String :=
  match s.platform with
  | "mac" =>
      "\ncc = \"clang\"\ncxx = \"clang++\"\ntarget_os = \"mac\"\n" ++
      ("target_cpu = \"" ++ s.arch ++ "\"\n") ++ "\n" ++
      ("skia_use_gl = " ++ bool_str (s.backends.contains "gl") ++ "\n") ++
      ("skia_use_metal = " ++ bool_str (s.backends.contains "metal") ++ "\n") ++
      "skia_use_vulkan = false\n" ++
      ("skia_use_dawn = " ++ bool_str (s.backends.contains "dawn") ++ "\n") ++
      "\nextra_cflags_c = [\"-Wno-error\"]\nextra_cflags_cc = [\"-stdlib=libc++\"]\nextra_ldflags = [\"-stdlib=libc++\", \"-L/opt/homebrew/opt/llvm/lib/c++\", \"-L/opt/homebrew/opt/llvm/lib/unwind\", \"-lunwind\"]\n"
  | "win" =>
      "\n" ++ ("target_cpu = \"" ++ s.arch ++ "\"\n") ++ "\n" ++
      ("skia_use_gl = " ++ bool_str (s.backends.contains "gl") ++ "\n") ++
      ("skia_use_vulkan = " ++ bool_str (s.backends.contains "vulkan") ++ "\n") ++
      ("skia_use_direct3d = " ++ bool_str (s.backends.contains "d3d") ++ "\n") ++
      ("skia_use_dawn = " ++ bool_str (s.backends.contains "dawn") ++ "\n") ++
      "skia_use_metal = false\n\nis_trivial_abi = false\n" ++
      ("extra_cflags = [\"" ++
        (if s.config = "Debug" then "/MTd" else "/MT") ++ "\"]\n")
  | "linux" =>
      "\ncc = \"clang\"\ncxx = \"clang++\"\n" ++
      ("target_cpu = \"" ++ s.arch ++ "\"\n") ++ "\n" ++
      ("skia_use_gl = " ++ bool_str (s.backends.contains "gl") ++ "\n") ++
      ("skia_use_vulkan = " ++ bool_str (s.backends.contains "vulkan") ++ "\n") ++
      ("skia_use_dawn = " ++ bool_str (s.backends.contains "dawn") ++ "\n") ++
      "skia_use_metal = false\nskia_use_direct3d = false\n\nskia_use_x11 = true\nskia_use_fontconfig = true\nskia_use_freetype = true\nskia_use_system_freetype2 = false\n\nextra_cflags_c = [\"-Wno-error\"]\n"
  | _ => ""

/-- The fixed Windows Clang/LLVM candidate install paths. -/
def clang_paths : List String :=
  ["C:\\Program Files\\LLVM",
   "C:\\Program Files\\Microsoft Visual Studio\\2022\\Professional\\VC\\Tools\\Llvm\\x64",
   "C:\\Program Files\\Microsoft Visual Studio\\2022\\Community\\VC\\Tools\\Llvm\\x64",
   "C:\\Program Files\\Microsoft Visual Studio\\2022\\Enterprise\\VC\\Tools\\Llvm\\x64"]

/-- The Clang-path scan: first candidate directory that exists according to
the `os.path.isdir` oracle. -/
def find_clang_win (isdir : String → Bool) : Option String :=
  clang_paths.find? isdir

/-- The rendered GN-args text assembled by `generate_gn_args`: base template,
platform template, debug/official flags, and on win the discovered Clang
path (omitted with only a warning when the scan finds none). -/
def generate_gn_args_text (s : ViewerBuildScript) (isdir : String → Bool) :
    String :=
  base_gn_args s.with_ganesh s.with_graphite ++ platform_gn_args s ++
    (if s.config = "Debug" then "\nis_debug = true\n" else "\nis_debug = false\n")
    ++ "is_official_build = false\n" ++
    (if s.platform = "win" then
      match find_clang_win isdir with
      | some p => "\nclang_win = \"" ++ p ++ "\"\n"
      | none => ""
    else "")

/-- `get_output_dir`, as path components below the base build directory:
`viewer-gpu` or `viewer-cpu`, then platform/config(/arch). -/
def get_output_dir (s : ViewerBuildScript) : List String :=
  let variant := if s.with_ganesh || s.with_graphite then "gpu" else "cpu"
  if s.platform = "mac" then
    ["viewer-" ++ variant, "mac", s.config]
  else
    ["viewer-" ++ variant, s.platform, s.config, s.arch]

/-- Whether an `Except`-modelled stage succeeded. -/
def exceptIsOk : Except Nat ViewerBuildScript → Bool
  | Except.ok _ => true
  | Except.error _ => false

deriving instance DecidableEq for Except

set_option maxRecDepth 40000

/-- The empty pattern occurs in every string. -/
theorem strContainsAux_nil_pat (l : List Char) : strContainsAux [] l = true := by
  induction l with
  | nil => rfl
  | cons c rest ih => simp [strContainsAux, List.isPrefixOf]

/-- A prefix of a list is a prefix of any right-extension of it. -/
theorem isPrefixOf_append_of (pat l₁ l₂ : List Char)
    (h : pat.isPrefixOf l₁ = true) : pat.isPrefixOf (l₁ ++ l₂) = true := by
  rw [List.isPrefixOf_iff_prefix] at h ⊢
  exact h.trans (List.prefix_append l₁ l₂)

/-- Occurrence in the right part of a concatenation persists. -/
theorem strContainsAux_append_right (pat l₁ l₂ : List Char)
    (h : strContainsAux pat l₂ = true) :
    strContainsAux pat (l₁ ++ l₂) = true := by
  induction l₁ with
  | nil => simpa using h
  | cons c rest ih =>
      simp only [List.cons_append, strContainsAux, Bool.or_eq_true]
      exact Or.inr ih

/-- Occurrence in the left part of a concatenation persists. -/
theorem strContainsAux_append_left (pat l₁ l₂ : List Char)
    (h : strContainsAux pat l₁ = true) :
    strContainsAux pat (l₁ ++ l₂) = true := by
  induction l₁ with
  | nil =>
      have hp : pat = [] := by
        simpa [strContainsAux, List.isEmpty_iff] using h
      subst hp
      exact strContainsAux_nil_pat _
  | cons c rest ih =>
      simp only [strContainsAux, Bool.or_eq_true] at h
      simp only [List.cons_append, strContainsAux, Bool.or_eq_true]
      cases h with
      | inl hp =>
          exact Or.inl (isPrefixOf_append_of pat (c :: rest) l₂ hp)
      | inr hr => exact Or.inr (ih hr)

/-- String-level version of `strContainsAux_append_right`. -/
theorem strContains_append_right (s t pat : String)
    (h : strContains t pat = true) : strContains (s ++ t) pat = true := by
  unfold strContains at h ⊢
  rw [String.data_append]
  exact strContainsAux_append_right _ _ _ h

/-- String-level version of `strContainsAux_append_left`. -/
theorem strContains_append_left (s t pat : String)
    (h : strContains s pat = true) : strContains (s ++ t) pat = true := by
  unfold strContains at h ⊢
  rw [String.data_append]
  exact strContainsAux_append_left _ _ _ h

/-- `List.find?` only looks at the values of the predicate on the list. -/
theorem find_congr {α : Type} (f g : α → Bool) (l : List α)
    (h : ∀ x ∈ l, f x = g x) : l.find? f = l.find? g := by
  induction l with
  | nil => rfl
  | cons a rest ih =>
      have h1 : f a = g a := h a (List.mem_cons_self a rest)
      cases hg : g a with
      | true =>
          rw [List.find?_cons_of_pos _ (h1.trans hg),
            List.find?_cons_of_pos _ hg]
      | false =>
          rw [List.find?_cons_of_neg _ (by simp [h1, hg]),
            List.find?_cons_of_neg _ (by simp [hg])]
          exact ih fun x hx => h x (List.mem_cons_of_mem a hx)

/-- The filtering loop computes exactly: one warning per dropped backend (in
request order) and the sublist of backends whose table entry is `True`. -/
theorem filterBackends_eq (p : String) (bs : List String) :
    filterBackends p bs =
      (bs.filterMap (dropWarning p),
        bs.filter (fun b => backendEntry p b == some true)) := by
  induction bs with
  | nil => rfl
  | cons b rest ih =>
      simp only [filterBackends, ih, dropWarning, List.filterMap_cons,
        List.filter_cons]
      cases hE : backendEntry p b with
      | none => simp [hE]
      | some v => cases v <;> simp [hE]

/-- Every `sys.exit` inside `validate_configuration` uses status 1. -/
theorem validate_error_code (s : ViewerBuildScript) (msgs : List String)
    (c : Nat) (h : validate_configuration s = (msgs, Except.error c)) :
    c = 1 := by
  unfold validate_configuration at h
  split at h
  · injection h with h1 h2
    injection h2 with h3
    exact h3.symm
  · split at h
    · injection h with h1 h2
      injection h2 with h3
      exact h3.symm
    · split at h
      · injection h with h1 h2
        exact Except.noConfusion h2
      · injection h with h1 h2
        injection h2 with h3
        exact h3.symm

/-- Characterization of a successful `validate_configuration` run: both
engine/backends/arch guards passed, the messages are the filtering warnings
plus any Dawn warning, and the final state is the Dawn-step result over the
filtered state. -/
theorem validate_ok_eq (s s' : ViewerBuildScript) (msgs : List String)
    (h : validate_configuration s = (msgs, Except.ok s')) :
    ¬(s.with_ganesh = false ∧ s.with_graphite = false) ∧
    (filterBackends s.platform s.backends).2 ≠ [] ∧
    (valid_archs s.platform).contains s.arch = true ∧
    msgs = (filterBackends s.platform s.backends).1 ++
      (validate_step_dawn
        { s with backends := (filterBackends s.platform s.backends).2 }).1 ∧
    s' = (validate_step_dawn
      { s with backends := (filterBackends s.platform s.backends).2 }).2 := by
  unfold validate_configuration at h
  split at h
  · injection h with h1 h2
    exact Except.noConfusion h2
  · next hA =>
    split at h
    · injection h with h1 h2
      exact Except.noConfusion h2
    · next hB =>
      split at h
      · next hC =>
          injection h with h1 h2
          injection h2 with h3
          exact ⟨hA, hB, hC, h1.symm, h3.symm⟩
      · injection h with h1 h2
        exact Except.noConfusion h2

/-- The Dawn step never touches platform, config, arch, backends or the
Ganesh flag. -/
theorem step_dawn_fields (t : ViewerBuildScript) :
    (validate_step_dawn t).2.platform = t.platform ∧
    (validate_step_dawn t).2.config = t.config ∧
    (validate_step_dawn t).2.arch = t.arch ∧
    (validate_step_dawn t).2.backends = t.backends ∧
    (validate_step_dawn t).2.with_ganesh = t.with_ganesh := by
  unfold validate_step_dawn
  split <;> simp

/-- After the Dawn step, a state whose backends include `dawn` has Graphite
enabled. -/
theorem step_dawn_graphite (t : ViewerBuildScript)
    (hd : t.backends.contains "dawn" = true) :
    (validate_step_dawn t).2.with_graphite = true := by
  unfold validate_step_dawn
  split
  · simp
  · next hcond =>
      cases hgr : t.with_graphite with
      | true => simp [hgr]
      | false => exact absurd ⟨hd, hgr⟩ hcond

/-- The Dawn step never disables Graphite. -/
theorem step_dawn_graphite_mono (t : ViewerBuildScript)
    (h : t.with_graphite = true) :
    (validate_step_dawn t).2.with_graphite = true := by
  unfold validate_step_dawn
  split
  · simp
  · simpa using h

/-- When Dawn is selected with Graphite off, the Dawn step prints exactly
the forcing warning. -/
theorem step_dawn_warning (t : ViewerBuildScript)
    (hd : t.backends.contains "dawn" = true) (hg : t.with_graphite = false) :
    (validate_step_dawn t).1 = [dawn_warning] := by
  unfold validate_step_dawn
  rw [if_pos ⟨hd, hg⟩]

/-- A successfully parsed invocation is the validation of its resolved
state (the argparse guards passed). -/
theorem parse_ok_eq (a : RawArgs) (s' : ViewerBuildScript)
    (msgs : List String) (h : parse_arguments a = (msgs, Except.ok s')) :
    validate_configuration (resolve_state a) = (msgs, Except.ok s') := by
  unfold parse_arguments at h
  split at h
  · injection h with h1 h2
    exact Except.noConfusion h2
  · split at h
    · injection h with h1 h2
      exact Except.noConfusion h2
    · exact h

/-- Validation preserves the configuration name. -/
theorem validate_ok_config (s s' : ViewerBuildScript) (msgs : List String)
    (h : validate_configuration s = (msgs, Except.ok s')) :
    s'.config = s.config := by
  obtain ⟨-, -, -, -, hs'⟩ := validate_ok_eq s s' msgs h
  rw [hs']
  exact (step_dawn_fields _).2.1

/-- On a state whose platform is win, `platform_gn_args` is the rendered
win template. -/
theorem platform_gn_args_win (s : ViewerBuildScript)
    (h : s.platform = "win") :
    platform_gn_args s =
      "\n" ++ ("target_cpu = \"" ++ s.arch ++ "\"\n") ++ "\n" ++
      ("skia_use_gl = " ++ bool_str (s.backends.contains "gl") ++ "\n") ++
      ("skia_use_vulkan = " ++ bool_str (s.backends.contains "vulkan") ++ "\n") ++
      ("skia_use_direct3d = " ++ bool_str (s.backends.contains "d3d") ++ "\n") ++
      ("skia_use_dawn = " ++ bool_str (s.backends.contains "dawn") ++ "\n") ++
      "skia_use_metal = false\n\nis_trivial_abi = false\n" ++
      ("extra_cflags = [\"" ++
        (if s.config = "Debug" then "/MTd" else "/MT") ++ "\"]\n") := by
  unfold platform_gn_args
  rw [h]
  rfl

/-- C1 counterexample: on platform win with arch arm64 and no explicit
backend list, the resolver keeps the OpenGL backend -- the resolved
request's backend list is the full win default including gl, so the
claimed suppression of gl for win/arm64 does not happen in this script. -/
theorem c1_counterexample :
    parse_arguments ⟨"win", none, some "arm64", none, false, false, false, false⟩ =
      ([], Except.ok ⟨"win", "Release", "arm64",
        ["gl", "vulkan", "d3d", "dawn"], true, true, true, false⟩) ∧
    (["gl", "vulkan", "d3d", "dawn"] : List String).contains "gl" = true := by
  decide

/-- C1 (amended): the viewer script's backend table is keyed by platform
only, with no per-architecture rule; for platform win and either valid
architecture, an invocation without an explicit backend list resolves to
the same backend set ["gl", "vulkan", "d3d", "dawn"], which contains gl. -/
theorem c1_no_arch_table (arch : String) (h : arch ∈ valid_archs "win") :
    parse_arguments ⟨"win", none, some arch, none, false, false, false, false⟩ =
      ([], Except.ok ⟨"win", "Release", arch,
        ["gl", "vulkan", "d3d", "dawn"], true, true, true, false⟩) ∧
    (["gl", "vulkan", "d3d", "dawn"] : List String).contains "gl" = true := by
  have h' : arch = "x64" ∨ arch = "arm64" := by
    simpa [valid_archs] using h
  rcases h' with rfl | rfl <;> exact ⟨by decide, by decide⟩

/-- C1 witness: `c1_no_arch_table` applied at arch arm64. -/
theorem c1_no_arch_table_witness :
    parse_arguments ⟨"win", none, some "arm64", none, false, false, false, false⟩ =
      ([], Except.ok ⟨"win", "Release", "arm64",
        ["gl", "vulkan", "d3d", "dawn"], true, true, true, false⟩) ∧
    (["gl", "vulkan", "d3d", "dawn"] : List String).contains "gl" = true :=
  c1_no_arch_table "arm64" (by decide)

/-- C2 counterexample: an unknown platform is rejected by the argparse
layer with exit status 2, not 1, refuting the claim that every validation
failure exits with status 1. -/
theorem c2_counterexample :
    parse_arguments ⟨"android", none, none, none, false, false, false, false⟩ =
      ([argparse_usage_error], Except.error 2) ∧ (2 : Nat) ≠ 1 := by
  decide

/-- C2 (amended): every failing exit of the argument-resolution pipeline
has status 1 or 2, and status 2 occurs exactly when argparse itself
rejects the input (unknown platform or invalid config choice); all
failures of `validate_configuration` use status 1. -/
theorem c2_exit_codes (a : RawArgs) (msgs : List String) (c : Nat)
    (h : parse_arguments a = (msgs, Except.error c)) :
    (c = 1 ∨ c = 2) ∧
    (c = 2 ↔ (choices_platform.contains a.platform && configOk a.config) = false) := by
  unfold parse_arguments at h
  split at h
  · next hplat =>
      injection h with h1 h2
      injection h2 with h3
      subst h3
      refine ⟨Or.inr rfl, ?_⟩
      rw [hplat]
      simp
  · next hplat =>
      split at h
      · next hconf =>
          injection h with h1 h2
          injection h2 with h3
          subst h3
          have hp : choices_platform.contains a.platform = true := by
            simpa using hplat
          refine ⟨Or.inr rfl, ?_⟩
          rw [hp, hconf]
          simp
      · next hconf =>
          have hc1 : c = 1 := validate_error_code _ _ _ h
          subst hc1
          have hp : choices_platform.contains a.platform = true := by
            simpa using hplat
          have hcfg : configOk a.config = true := by
            simpa using hconf
          refine ⟨Or.inl rfl, ?_⟩
          rw [hp, hcfg]
          simp

/-- C2 witness: `c2_exit_codes` applied to the unknown platform android. -/
theorem c2_exit_codes_witness :
    ((2 : Nat) = 1 ∨ (2 : Nat) = 2) ∧
    ((2 : Nat) = 2 ↔
      (choices_platform.contains "android" && configOk none) = false) :=
  c2_exit_codes ⟨"android", none, none, none, false, false, false, false⟩
    [argparse_usage_error] 2 (by decide)

/-- C3: with the engine and architecture guards satisfied, the filtering
loop emits exactly one warning per backend outside the platform's
valid-and-recommended set and keeps the rest in order, validation fails
(with exit status 1) precisely when the filtered set is empty, and the
mac/vulkan scenario produces the not-recommended warning, an empty backend
list, and exit 1. -/
theorem c3_backend_filtering (s : ViewerBuildScript)
    (heng : s.with_ganesh = true ∨ s.with_graphite = true)
    (harch : (valid_archs s.platform).contains s.arch = true) :
    (filterBackends s.platform s.backends).1 =
      s.backends.filterMap (dropWarning s.platform) ∧
    (filterBackends s.platform s.backends).2 =
      s.backends.filter (fun b => backendEntry s.platform b == some true) ∧
    ((validate_configuration s).2 = Except.error 1 ↔
      (filterBackends s.platform s.backends).2 = []) ∧
    parse_arguments ⟨"mac", none, none, some "vulkan", false, false, false, false⟩ =
      ([warn_not_recommended "vulkan" "mac", no_backends_error],
        Except.error 1) := by
  have hA : ¬(s.with_ganesh = false ∧ s.with_graphite = false) := by
    rcases heng with h | h <;> simp [h]
  refine ⟨?_, ?_, ?_, by decide⟩
  · rw [filterBackends_eq]
  · rw [filterBackends_eq]
  · constructor
    · intro herr
      by_contra hne
      have hok : validate_configuration s =
          ((filterBackends s.platform s.backends).1 ++
            (validate_step_dawn
              { s with
                backends := (filterBackends s.platform s.backends).2 }).1,
            Except.ok (validate_step_dawn
              { s with
                backends := (filterBackends s.platform s.backends).2 }).2) := by
        unfold validate_configuration
        rw [if_neg hA, if_neg hne, if_pos harch]
      rw [hok] at herr
      exact Except.noConfusion herr
    · intro hempty
      unfold validate_configuration
      rw [if_neg hA, if_pos hempty]

/-- C3 witness: `c3_backend_filtering` at the mac/vulkan request. -/
theorem c3_backend_filtering_witness :
    (filterBackends "mac" ["vulkan"]).1 =
      (["vulkan"] : List String).filterMap (dropWarning "mac") ∧
    (filterBackends "mac" ["vulkan"]).2 =
      (["vulkan"] : List String).filter
        (fun b => backendEntry "mac" b == some true) ∧
    ((validate_configuration
        ⟨"mac", "Release", "arm64", ["vulkan"], true, true, true, false⟩).2 =
        Except.error 1 ↔
      (filterBackends "mac" ["vulkan"]).2 = []) ∧
    parse_arguments ⟨"mac", none, none, some "vulkan", false, false, false, false⟩ =
      ([warn_not_recommended "vulkan" "mac", no_backends_error],
        Except.error 1) :=
  c3_backend_filtering
    ⟨"mac", "Release", "arm64", ["vulkan"], true, true, true, false⟩
    (Or.inl rfl) (by decide)

/-- C4: a request that survives validation with dawn among its backends has
the Graphite flag true; and when Graphite had been disabled, the forcing
warning is among the printed messages (validation proceeded instead of
failing). -/
theorem c4_dawn_forces_graphite (s s' : ViewerBuildScript)
    (msgs : List String)
    (h : validate_configuration s = (msgs, Except.ok s'))
    (hdawn : s'.backends.contains "dawn" = true) :
    s'.with_graphite = true ∧
    (s.with_graphite = false → dawn_warning ∈ msgs) := by
  obtain ⟨hA, hB, hC, hmsgs, hs'⟩ := validate_ok_eq s s' msgs h
  have hbt : ({ s with
      backends := (filterBackends s.platform s.backends).2 } :
        ViewerBuildScript).backends.contains "dawn" = true := by
    rw [hs'] at hdawn
    rwa [(step_dawn_fields _).2.2.2.1] at hdawn
  refine ⟨?_, ?_⟩
  · rw [hs']
    exact step_dawn_graphite _ hbt
  · intro hg
    rw [hmsgs, step_dawn_warning _ hbt hg]
    simp

/-- C4 witness: a linux request selecting only dawn with Graphite disabled
survives validation with Graphite forced on and the warning printed. -/
theorem c4_dawn_forces_graphite_witness :
    (⟨"linux", "Release", "x64", ["dawn"], true, true, true, false⟩ :
      ViewerBuildScript).with_graphite = true ∧
    (false = false → dawn_warning ∈ [dawn_warning]) :=
  c4_dawn_forces_graphite
    ⟨"linux", "Release", "x64", ["dawn"], true, false, true, false⟩
    ⟨"linux", "Release", "x64", ["dawn"], true, true, true, false⟩
    [dawn_warning] (by decide) (by decide)

/-- C5: with both engine-disabling flags set, the resolution pipeline
always exits with a non-zero status, and whenever the argparse layer
accepts the tokens the result is exactly the engine error with exit 1 --
independently of backends and architecture, showing the engine check
precedes backend filtering and architecture validation (and happens before
any external command is run, since `run` validates before every other
stage). -/
theorem c5_both_engines_disabled (a : RawArgs)
    (h1 : a.no_ganesh = true) (h2 : a.no_graphite = true) :
    (∃ c msgs, parse_arguments a = (msgs, Except.error c) ∧ c ≠ 0) ∧
    (choices_platform.contains a.platform = true → configOk a.config = true →
      parse_arguments a = ([engines_error], Except.error 1)) := by
  have key : ∀ (hp : choices_platform.contains a.platform = true)
      (hc : configOk a.config = true),
      parse_arguments a = ([engines_error], Except.error 1) := by
    intro hp hc
    unfold parse_arguments
    rw [if_neg (by rw [hp]; decide), if_neg (by rw [hc]; decide)]
    unfold validate_configuration
    rw [if_pos ⟨by simp [resolve_state, h1], by simp [resolve_state, h2]⟩]
  refine ⟨?_, key⟩
  by_cases hp : choices_platform.contains a.platform = true
  · by_cases hc : configOk a.config = true
    · exact ⟨1, [engines_error], key hp hc, by decide⟩
    · refine ⟨2, [argparse_usage_error], ?_, by decide⟩
      unfold parse_arguments
      rw [if_neg (by rw [hp]; decide), if_pos (by simpa using hc)]
  · refine ⟨2, [argparse_usage_error], ?_, by decide⟩
    unfold parse_arguments
    rw [if_pos (by simpa using hp)]

/-- C5 witness: `c5_both_engines_disabled` at a linux invocation carrying
both `--no-ganesh` and `--no-graphite`. -/
theorem c5_both_engines_disabled_witness :
    (∃ c msgs,
      parse_arguments ⟨"linux", none, none, none, true, true, false, false⟩ =
        (msgs, Except.error c) ∧ c ≠ 0) ∧
    (choices_platform.contains "linux" = true → configOk none = true →
      parse_arguments ⟨"linux", none, none, none, true, true, false, false⟩ =
        ([engines_error], Except.error 1)) :=
  c5_both_engines_disabled
    ⟨"linux", none, none, none, true, true, false, false⟩ rfl rfl

/-- C6: the rendered GN-args text depends only on the BuildRequest and the
probe results on the fixed Clang candidate list, so two runs of the
renderer over the same validated request and unchanged filesystem produce
byte-identical text. -/
theorem c6_render_deterministic (s : ViewerBuildScript)
    (f g : String → Bool) (h : ∀ p ∈ clang_paths, f p = g p) :
    generate_gn_args_text s f = generate_gn_args_text s g := by
  have hfind : find_clang_win f = find_clang_win g := by
    unfold find_clang_win
    exact find_congr f g clang_paths h
  unfold generate_gn_args_text
  rw [hfind]

/-- C6 witness: two extensionally equal directory oracles render the same
text for the default win request. -/
theorem c6_render_deterministic_witness :
    generate_gn_args_text
      ⟨"win", "Release", "x64", ["gl", "vulkan", "d3d", "dawn"],
        true, true, true, false⟩ (fun _ => false) =
    generate_gn_args_text
      ⟨"win", "Release", "x64", ["gl", "vulkan", "d3d", "dawn"],
        true, true, true, false⟩ (fun p => p == "none-such") :=
  c6_render_deterministic _ _ _ (by decide)

/-- C7: a linux invocation with no arch and no backends flag resolves to
arch x64, backends [gl, vulkan, dawn] in order, both engines enabled, and
passes validation with no messages (so the run proceeds to the
generate/compile stages). -/
theorem c7_linux_defaults :
    parse_arguments ⟨"linux", none, none, none, false, false, false, false⟩ =
      ([], Except.ok ⟨"linux", "Release", "x64", ["gl", "vulkan", "dawn"],
        true, true, true, false⟩) := by
  decide

/-- C8: every request that survives validation has its final output
directory under viewer-gpu; the cpu variant is unreachable because
validation guarantees at least one engine flag. -/
theorem c8_output_under_viewer_gpu (s s' : ViewerBuildScript)
    (msgs : List String)
    (h : validate_configuration s = (msgs, Except.ok s')) :
    (get_output_dir s').head? = some "viewer-gpu" := by
  obtain ⟨hA, -, -, -, hs'⟩ := validate_ok_eq s s' msgs h
  have hgg : (s'.with_ganesh || s'.with_graphite) = true := by
    rcases Bool.eq_false_or_eq_true s.with_ganesh with hg | hg
    · have hg' : s'.with_ganesh = true := by
        rw [hs', (step_dawn_fields _).2.2.2.2]
        exact hg
      simp [hg']
    · have hgr : s.with_graphite = true := by
        rcases Bool.eq_false_or_eq_true s.with_graphite with hr | hr
        · exact hr
        · exact absurd ⟨hg, hr⟩ hA
      have hgr' : s'.with_graphite = true := by
        rw [hs']
        exact step_dawn_graphite_mono _ hgr
      simp [hgr']
  simp only [get_output_dir, hgg, if_true]
  split <;> rfl

/-- C8 witness: the validated linux default request lands under
viewer-gpu. -/
theorem c8_output_under_viewer_gpu_witness :
    (get_output_dir ⟨"linux", "Release", "x64", ["gl", "vulkan", "dawn"],
      true, true, true, false⟩).head? = some "viewer-gpu" :=
  c8_output_under_viewer_gpu
    ⟨"linux", "Release", "x64", ["gl", "vulkan", "dawn"],
      true, true, true, false⟩
    ⟨"linux", "Release", "x64", ["gl", "vulkan", "dawn"],
      true, true, true, false⟩
    [] (by decide)

/-- C9 counterexample: for the empty input string the resolved backend
list is the platform default, not the single empty token that
splitting/stripping/lowercasing the empty string yields, because Python
truthiness sends the empty string to the default branch. -/
theorem c9_counterexample :
    parse_backends "linux" (some "") = ["gl", "vulkan", "dawn"] ∧
    (pySplitComma "").map (fun b => pyLower (pyStrip b)) = [""] ∧
    (["gl", "vulkan", "dawn"] : List String) ≠ [""] := by
  decide

/-- C9 (amended): for every non-empty input string the resolved backend
list is exactly the comma-separated tokens stripped and lowercased in
input order; in particular " GL , Vulkan" resolves to [gl, vulkan]. -/
theorem c9_token_normalization (p s : String) (h : s ≠ "") :
    parse_backends p (some s) =
      (pySplitComma s).map (fun b => pyLower (pyStrip b)) ∧
    parse_backends p (some " GL , Vulkan") = ["gl", "vulkan"] := by
  constructor
  · simp only [parse_backends]
    rw [if_neg h]
  · simp only [parse_backends]
    rw [if_neg (by decide : ¬(" GL , Vulkan" : String) = "")]
    decide

/-- C9 witness: `c9_token_normalization` at the example input. -/
theorem c9_token_normalization_witness :
    parse_backends "linux" (some " GL , Vulkan") =
      (pySplitComma " GL , Vulkan").map (fun b => pyLower (pyStrip b)) ∧
    parse_backends "linux" (some " GL , Vulkan") = ["gl", "vulkan"] :=
  c9_token_normalization "linux" " GL , Vulkan" (by decide)

/-- C10: when `-config` is omitted, the resolved configuration is Release;
the rendered text then contains is_debug = false, on win it carries the
/MT runtime flag, and the rendered default win Release text does not
contain /MTd anywhere. -/
theorem c10_release_default (a : RawArgs) (s' : ViewerBuildScript)
    (msgs : List String) (isdir : String → Bool)
    (hconfig : a.config = none)
    (h : parse_arguments a = (msgs, Except.ok s')) :
    s'.config = "Release" ∧
    strContains (generate_gn_args_text s' isdir) "is_debug = false" = true ∧
    (s'.platform = "win" →
      strContains (generate_gn_args_text s' isdir)
        "extra_cflags = [\"/MT\"]" = true) ∧
    strContains
      (generate_gn_args_text
        ⟨"win", "Release", "x64", ["gl", "vulkan", "d3d", "dawn"],
          true, true, true, false⟩ (fun _ => false)) "/MTd" = false := by
  have hv := parse_ok_eq a s' msgs h
  have hcfg : s'.config = "Release" := by
    rw [validate_ok_config _ _ _ hv]
    simp [resolve_state, hconfig]
  refine ⟨hcfg, ?_, ?_, by decide⟩
  · unfold generate_gn_args_text
    rw [if_neg (show ¬(s'.config = "Debug") by rw [hcfg]; decide)]
    apply strContains_append_left
    apply strContains_append_left
    apply strContains_append_right
    decide
  · intro hwin
    unfold generate_gn_args_text
    apply strContains_append_left
    apply strContains_append_left
    apply strContains_append_left
    apply strContains_append_right
    rw [platform_gn_args_win s' hwin]
    apply strContains_append_right
    rw [hcfg]
    decide

/-- C10 witness: `c10_release_default` at the default win invocation with
`-config` omitted. -/
theorem c10_release_default_witness :
    (⟨"win", "Release", "x64", ["gl", "vulkan", "d3d", "dawn"],
      true, true, true, false⟩ : ViewerBuildScript).config = "Release" ∧
    strContains
      (generate_gn_args_text
        ⟨"win", "Release", "x64", ["gl", "vulkan", "d3d", "dawn"],
          true, true, true, false⟩ (fun _ => false)) "is_debug = false" = true ∧
    ((⟨"win", "Release", "x64", ["gl", "vulkan", "d3d", "dawn"],
        true, true, true, false⟩ : ViewerBuildScript).platform = "win" →
      strContains
        (generate_gn_args_text
          ⟨"win", "Release", "x64", ["gl", "vulkan", "d3d", "dawn"],
            true, true, true, false⟩ (fun _ => false))
        "extra_cflags = [\"/MT\"]" = true) ∧
    strContains
      (generate_gn_args_text
        ⟨"win", "Release", "x64", ["gl", "vulkan", "d3d", "dawn"],
          true, true, true, false⟩ (fun _ => false)) "/MTd" = false :=
  c10_release_default
    ⟨"win", none, none, none, false, false, false, false⟩
    ⟨"win", "Release", "x64", ["gl", "vulkan", "d3d", "dawn"],
      true, true, true, false⟩
    [] (fun _ => false) rfl (by decide)

end SkiaViewer
